import Mathlib

/-
Verification development for the sqlmap GUI wrapper (sqlmap_gui_swe.py).

Part 1 embeds the Command Assembler, `SqlmapGui.build_sqlmap_command`
(source lines 633-706).  The per-option loop reads each widget's current
value, compares it with the registered default using a kind-specific
equality, and appends the option's tokens to the command list; the
technique-letter checkbox group is skipped in the loop and handled by a
set comparison afterwards.

Part 2 embeds the Process Supervisor, `SqlmapRunnerThread` (lines 45-128)
together with the GUI-side `stop_current_sqlmap_instance` (lines 884-901):
the identifier counter, the `run` method's read loop with its emitted
signal trace, and the `stop` method.
-/

/-- Widget kinds handled by `add_widget_option` / `build_sqlmap_command`. -/
inductive WidgetKind
  | lineedit
  | textarea
  | checkbox
  | combo
  | spin
  | file
  | directory
deriving DecidableEq

/-- The Python `value` variable at the emission point of the loop: after the
non-default branch it is either the literal `True` (checkbox) or a string. -/
inductive PyVal
  | vtrue
  | vstr (s : String)
deriving DecidableEq

/-- One entry of `self.widgets_map`: the widget's identifier, CLI flag, kind,
current widget state, and the registered defaults (`default`, `default_text`,
`default_index` in the source's map). Fields irrelevant to a given kind are
ignored by `isDefault`/`currentVal`, as in the source. -/
structure OptionEntry where
  widget_id : String
  flag : String
  wtype : WidgetKind
  text : String
  checked : Bool
  comboText : String
  comboIndex : Int
  spinValue : Int
  defaultText : String
  defaultBool : Bool
  defaultIndex : Int
  defaultSpin : Int
deriving DecidableEq

/-- Entry for a lineedit/textarea widget (text options). -/
def mkText (i f t d : String) : OptionEntry :=
  ⟨i, f, WidgetKind.lineedit, t, false, "", 0, 0, d, false, -1, 0⟩

/-- Entry for a checkbox widget (boolean options). -/
def mkCheck (i f : String) (c d : Bool) : OptionEntry :=
  ⟨i, f, WidgetKind.checkbox, "", c, "", 0, 0, "", d, -1, 0⟩

/-- Entry for a spin-box widget (integer options). -/
def mkSpin (i f : String) (v d : Int) : OptionEntry :=
  ⟨i, f, WidgetKind.spin, "", false, "", 0, v, "", false, -1, d⟩

/-- Entry for a file/directory picker widget (path options). -/
def mkFile (i f t : String) : OptionEntry :=
  ⟨i, f, WidgetKind.file, t, false, "", 0, 0, "", false, -1, 0⟩

/-- Entry for a combo-box widget (enumerated options). -/
def mkCombo (i f txt : String) (idx di : Int) : OptionEntry :=
  ⟨i, f, WidgetKind.combo, "", false, txt, idx, 0, "", false, di, 0⟩

/-- Python str.startswith, computed on the character list so that proofs
can evaluate it. -/
def strStartsWith (s p : String) : Bool := p.toList.isPrefixOf s.toList

/-- Python str.strip for the whitespace that occurs in this catalogue:
leading and trailing whitespace characters removed. -/
def pyStrip (s : String) : String :=
  String.mk (((s.toList.dropWhile Char.isWhitespace).reverse.dropWhile
    Char.isWhitespace).reverse)

/-- The loop's skip test and the technique comprehension's membership test:
`widget_id.startswith("tech_") and data["type"] == "checkbox"`. -/
def isTechCheckbox (e : OptionEntry) : Bool :=
  strStartsWith e.widget_id "tech_" && e.wtype == WidgetKind.checkbox

/-- The `is_default` computation of the loop body (lines 662-685), one case
per widget kind.  Text values are stripped before comparison, the combo is
default when the selected index matches or the text is empty with no
registered default index, and file/directory values are default when empty. -/
def isDefault (e : OptionEntry) : Bool :=
  match e.wtype with
  | WidgetKind.lineedit => pyStrip e.text == e.defaultText
  | WidgetKind.textarea => pyStrip e.text == e.defaultText
  | WidgetKind.checkbox => e.checked == e.defaultBool
  | WidgetKind.combo =>
      (e.comboIndex == e.defaultIndex) || (e.comboText == "" && e.defaultIndex == -1)
  | WidgetKind.spin => e.spinValue == e.defaultSpin
  | WidgetKind.file => pyStrip e.text == ""
  | WidgetKind.directory => pyStrip e.text == ""

/-- The `value` carried into the emission branch: `True` for a non-default
checkbox (line 673), the stripped text for text/path widgets, the combo's
current text, and `str(value)` for the spin box. -/
def currentVal (e : OptionEntry) : PyVal :=
  match e.wtype with
  | WidgetKind.checkbox => PyVal.vtrue
  | WidgetKind.lineedit => PyVal.vstr (pyStrip e.text)
  | WidgetKind.textarea => PyVal.vstr (pyStrip e.text)
  | WidgetKind.combo => PyVal.vstr e.comboText
  | WidgetKind.spin => PyVal.vstr (toString e.spinValue)
  | WidgetKind.file => PyVal.vstr (pyStrip e.text)
  | WidgetKind.directory => PyVal.vstr (pyStrip e.text)

/-- `target_options = ["-u", "-d", "-l", "-m", "-r", "-g", "-c"]` (line 651). -/
def target_options : List String := ["-u", "-d", "-l", "-m", "-r", "-g", "-c"]

/-- One iteration of the option loop (lines 653-698): the tokens this entry
appends to `command` and whether it sets `target_specified`.  Technique
checkboxes are skipped; a default value emits nothing; an empty string value
emits nothing; `True` appends the bare flag; a two-dash flag appends one
`flag=value` token; any other flag appends flag and value separately. -/
def processOption (e : OptionEntry) : List String × Bool :=
  if isTechCheckbox e then ([], false)
  else if isDefault e then ([], false)
  else
    match currentVal e with
    | PyVal.vtrue => ([e.flag], target_options.contains e.flag)
    | PyVal.vstr v =>
        if v == "" then ([], false)
        else if strStartsWith e.flag "--" then
          ([e.flag ++ "=" ++ v], target_options.contains e.flag)
        else
          ([e.flag, v], target_options.contains e.flag)

/-- The whole option loop: tokens appended in catalogue (insertion) order and
the accumulated `target_specified` disjunction. -/
def assembleOptions : List OptionEntry → List String × Bool
  | [] => ([], false)
  | e :: es =>
      ((processOption e).1 ++ (assembleOptions es).1,
       (processOption e).2 || (assembleOptions es).2)

/-- `tech_string` (lines 700-701): concatenation, in catalogue declaration
order, of the flags of the checked technique checkboxes. -/
def techLetters (entries : List OptionEntry) : String :=
  String.join (entries.filterMap fun e =>
    if isTechCheckbox e && e.checked then some e.flag else none)

/-- Python `set(s) == set(t)`: the two strings contain the same characters. -/
def charSetEq (s t : String) : Bool :=
  s.toList.all (fun c => t.toList.contains c) &&
  t.toList.all (fun c => s.toList.contains c)

/-- Lines 702-705: emit a single `--technique=` token when the letter set
differs from `set("BEUSTQ")` and the letter string is non-empty. -/
def techniquePart (entries : List OptionEntry) : List String :=
  if !charSetEq (techLetters entries) "BEUSTQ" then
    if techLetters entries != "" then
      ["--technique=" ++ techLetters entries]
    else []
  else []

/-- `build_sqlmap_command` from the executable prefix (`command_base`,
lines 643-649) onward: prefix, then the loop's tokens, then the technique
token; paired with `target_specified`. -/
def build_sqlmap_command (command_base : List String) (entries : List OptionEntry) :
    List String × Bool :=
  (command_base ++ (assembleOptions entries).1 ++ techniquePart entries,
   (assembleOptions entries).2)

/-- The technique checkbox group exactly as declared (lines 364-369):
identifiers tech_B..tech_Q, flags the bare letters, all defaults `True`. -/
def techCatalogue (bB bE bU bS bT bQ : Bool) : List OptionEntry :=
  [mkCheck "tech_B" "B" bB true,
   mkCheck "tech_E" "E" bE true,
   mkCheck "tech_U" "U" bU true,
   mkCheck "tech_S" "S" bS true,
   mkCheck "tech_T" "T" bT true,
   mkCheck "tech_Q" "Q" bQ true]

/-- The letters of the checked technique booleans concatenated in catalogue
declaration order, as the claim describes the expected token body. -/
def techConcatOrder (bB bE bU bS bT bQ : Bool) : String :=
  (if bB then "B" else "") ++ (if bE then "E" else "") ++ (if bU then "U" else "") ++
  (if bS then "S" else "") ++ (if bT then "T" else "") ++ (if bQ then "Q" else "")

/-- A catalogue holding the Target tab's seven options (lines 264-270), the
technique group at its defaults, and two representative Request options at
their defaults; only the Target URL text is the parameter. -/
def urlOnlyRest : List OptionEntry :=
  [mkText "target_direct" "-d" "" "",
   mkFile "target_log" "-l" "",
   mkFile "target_bulk" "-m" "",
   mkFile "target_requestfile" "-r" "",
   mkText "target_google" "-g" "" "",
   mkFile "target_config" "-c" ""] ++
  techCatalogue true true true true true true ++
  [mkSpin "req_timeout" "--timeout" 30 30,
   mkCheck "req_random_agent" "--random-agent" false false]

/-- The Target-URL-only catalogue: the URL entry followed by the rest. -/
def urlOnlyCatalogue (v : String) : List OptionEntry :=
  mkText "target_url" "-u" v "" :: urlOnlyRest

/-- The three-option catalogue of the end-to-end example claim: url set,
timeout 45 against default 30, random-agent checked against default false. -/
def c6Catalogue : List OptionEntry :=
  [mkText "target_url" "-u" "http://x/a.php?id=1" "",
   mkSpin "req_timeout" "--timeout" 45 30,
   mkCheck "req_random_agent" "--random-agent" true false]

/-- The CSV delimiter option (line 475): `default_text ","`, with the line
edit cleared by the user, so its value differs from its default but the
stripped value is the empty string. -/
def csvDelEmpty : OptionEntry := mkText "gen_csv_del" "--csv-del" "" ","

/-- The User-Agent option (line 273) with the literal text `-u` typed into
its line edit, so the value token collides with a target flag. -/
def agentDashU : OptionEntry := mkText "req_agent" "-A" "-u" ""

/-- One signal emission of the runner thread, tagged with the instance
identifier: `outputTextAvailable`, `processError`, or `processFinished`. -/
inductive Event
  | output (i : Nat) (s : String)
  | error (i : Nat) (s : String)
  | finished (i : Nat) (code : Int)
deriving DecidableEq

/-- Whether the event is one of the two terminal signals
(`processError` or `processFinished`) rather than an output chunk. -/
def Event.isTerm : Event → Bool
  | Event.output _ _ => false
  | Event.error _ _ => true
  | Event.finished _ _ => true

/-- Whether the event is a `processError` emission. -/
def Event.isErr : Event → Bool
  | Event.error _ _ => true
  | _ => false

/-- Whether the event is a `processFinished` emission. -/
def Event.isFin : Event → Bool
  | Event.finished _ _ => true
  | _ => false

/-- How the read loop of `run` (lines 86-93) was left: normally (the
`elif self.process.poll() is not None: break` branch — stream exhausted and
process exited), by a cancellation request observed at the `while` check
(the carried flag records whether `poll()` was still `None` at that moment,
the condition line 95 then tests), or by an unexpected exception. -/
inductive LoopExit
  | normal
  | cancelled (procAlive : Bool)
  | raised
deriving DecidableEq

/-- The externally determined behavior of one spawned instance: the command
list, whether `Popen` succeeds (`False` models `FileNotFoundError`), the
lines the merged stdout/stderr stream yields, `wait()`'s exit code on a
normal exit and after a forced termination, and the text of an unexpected
exception if one is raised. -/
structure RunBehavior where
  cmd : List String
  spawnOk : Bool
  lines : List String
  exitCode : Int
  termCode : Int
  excMsg : String
deriving DecidableEq

/-- The `[KOMMANDO]` banner emitted first by `run` (line 72). -/
def kommandoMsg (cmd : List String) : String :=
  "[KOMMANDO] Kör: " ++ String.intercalate " " cmd ++ "\n---\n"

/-- The `FileNotFoundError` message of line 107. -/
def fnfMsg (cmd : List String) : String :=
  "Fel: Kommandot '" ++ cmd.headD "" ++
  "' hittades inte. Kontrollera sökvägen i Arkiv -> Välj sqlmap Sökväg."

/-- The unexpected-exception message of line 110. -/
def excMsgWrap (e : String) : String :=
  "Ett oväntat fel uppstod i körningstråden: " ++ e

/-- The user-cancellation chunk of line 101. -/
def cancelMsg : String := "\n[INFO] Process avbruten av användaren.\n"

/-- The spinning tail of the read loop once the stream is exhausted:
`readline` keeps returning the empty string, so each further iteration
either observes `_is_running` false (cancellation; the process is alive iff
it has not yet exited), breaks because `poll()` is no longer `None`, raises,
or sleeps 50ms and retries.  `exitCtr` counts the iterations until the
child process exits; `poll()` is not `None` exactly once it reaches zero. -/
def spinLoop : Option Nat → Option Nat → Nat → LoopExit
  | some 0, _, e => LoopExit.cancelled (decide (0 < e))
  | _, some 0, _ => LoopExit.raised
  | _, _, 0 => LoopExit.normal
  | c, r, Nat.succ e => spinLoop (c.map (· - 1)) (r.map (· - 1)) e

/-- The read loop (lines 86-93): consumes the stream's lines one per
iteration, emitting each (a line buffered in the pipe is still returned by
`readline` after the child has exited); `cancelAt` counts the iterations
before `_is_running` is observed false at the `while` check, `raiseAt` the
iterations before `readline` raises, and `exitAt` the iterations until the
child process exits — `poll()` returns non-`None` from then on,
independently of how many lines remain unread.  A cancellation observed
while the process is still alive is recorded as `cancelled true` (the
lines 95-101 terminate-and-notify block runs); one observed after the
process already exited — even with unread lines pending — is
`cancelled false` (line 95's `poll() is None` guard fails, so the pending
lines are dropped silently and no cancellation chunk is emitted).
Returns the emitted lines and how the loop was left. -/
def readLoop : List String → Option Nat → Option Nat → Nat → List String × LoopExit
  | _, some 0, _, e => ([], LoopExit.cancelled (decide (0 < e)))
  | _, _, some 0, _ => ([], LoopExit.raised)
  | [], c, r, e => ([], spinLoop c r e)
  | l :: ls, c, r, e =>
      ((readLoop ls (c.map (· - 1)) (r.map (· - 1)) (e - 1)).1.cons l,
       (readLoop ls (c.map (· - 1)) (r.map (· - 1)) (e - 1)).2)

/-- The full signal trace of `SqlmapRunnerThread.run` (lines 64-114) for
instance `i`: the banner, then the streamed lines; a normal exit emits
`processFinished(exit code)`, a cancellation that finds the process still
alive emits the cancellation chunk then `processFinished(wait()'s code
after terminate/kill)`, a cancellation that finds the process already
exited skips the lines 95-101 block and emits only
`processFinished(exit code)`, an unexpected exception emits `processError`
then `processFinished(-1)`, and a spawn failure (`FileNotFoundError`)
emits `processError` then `processFinished(-1)` right after the banner. -/
def runTrace (b : RunBehavior) (i : Nat) (cancelAt raiseAt : Option Nat) (exitAt : Nat) :
    List Event :=
  if b.spawnOk then
    Event.output i (kommandoMsg b.cmd) ::
    ((readLoop b.lines cancelAt raiseAt exitAt).1.map (Event.output i) ++
      (match (readLoop b.lines cancelAt raiseAt exitAt).2 with
       | LoopExit.normal => [Event.finished i b.exitCode]
       | LoopExit.cancelled true => [Event.output i cancelMsg, Event.finished i b.termCode]
       | LoopExit.cancelled false => [Event.finished i b.exitCode]
       | LoopExit.raised => [Event.error i (excMsgWrap b.excMsg), Event.finished i (-1)]))
  else
    [Event.output i (kommandoMsg b.cmd),
     Event.error i (fnfMsg b.cmd),
     Event.finished i (-1)]

/-- Lines 61-62 of `__init__`: the new thread takes the class counter as its
identifier and increments the counter. -/
def newThreadId (counter : Nat) : Nat × Nat := (counter, counter + 1)

/-- The identifiers handed out by `n` successive thread constructions
starting from counter value `c`. -/
def allocIds : Nat → Nat → List Nat
  | _, 0 => []
  | c, Nat.succ n => (newThreadId c).1 :: allocIds (newThreadId c).2 n

/-- How the terminate/wait attempt inside `stop` plays out when the process
is still alive: `wait(timeout=1)` returns, it raises `TimeoutExpired` (so
`kill` is attempted), or some other exception is raised and caught. -/
inductive StopOutcome
  | graceful
  | timedOutThenKill
  | raisedDuring (msg : String)
deriving DecidableEq

/-- The informational chunk of line 120. -/
def stopTryMsg : String := "\n[INFO] Försöker stoppa processen...\n"

/-- The escalation chunk of line 125. -/
def stopKillMsg : String := "[INFO] Process svarade inte på terminate, försöker kill...\n"

/-- The warning chunk of line 128. -/
def stopWarnMsg (m : String) : String :=
  "[VARNING] Fel vid försök att stoppa processen: " ++ m ++ "\n"

/-- The runner thread's state as `stop` sees it: `self.process` is either
`None` (field `none`, as after `run`'s `finally` block) or a process handle
whose `poll()` result is `none` while running and `some code` once exited. -/
structure ThreadState where
  process : Option (Option Int)
  threadRunning : Bool
deriving DecidableEq

/-- The signal emissions of `SqlmapRunnerThread.stop` (lines 116-128): the
guard `self.process and self.process.poll() is None` makes the whole body
silent unless a live process exists; otherwise the informational chunk and,
depending on how termination goes, the escalation or warning chunk.  Every
exception inside is caught, so `stop` never raises. -/
def stopEmits (i : Nat) (process : Option (Option Int)) (oc : StopOutcome) : List Event :=
  match process with
  | none => []
  | some (some _) => []
  | some none =>
      Event.output i stopTryMsg ::
      (match oc with
       | StopOutcome.graceful => []
       | StopOutcome.timedOutThenKill => [Event.output i stopKillMsg]
       | StopOutcome.raisedDuring m => [Event.output i (stopWarnMsg m)])

/-- `stop_current_sqlmap_instance` (lines 884-901) reduced to its effect on
signal emissions for a requested handle `i`: look the handle up in
`running_processes`; an unknown handle does nothing, a thread that is no
longer running is not stopped, and otherwise `stop` runs. -/
def stopCurrentInstance (procs : List (Nat × ThreadState)) (i : Nat) (oc : StopOutcome) :
    List Event :=
  match procs.find? (fun p => p.1 == i) with
  | none => []
  | some p => if p.2.threadRunning then stopEmits i p.2.process oc else []

/-- Concrete behavior whose spawn fails: executable not found. -/
def fnfBehavior : RunBehavior := ⟨["sqlmap"], false, [], 0, 0, ""⟩

/-- Concrete behavior with one line still pending in the stream, used for
the cancellation scenarios: the cancellation and process-exit schedules are
supplied as `runTrace` arguments. -/
def cancelledBehavior : RunBehavior :=
  ⟨["sqlmap", "-u", "http://x/a.php?id=1"], true, ["output line\n"], 0, -15, ""⟩

theorem processOption_default (e : OptionEntry) (h : isDefault e = true) :
    processOption e = ([], false) := by
  unfold processOption
  rcases hT : isTechCheckbox e with _ | _
  · simp [hT, h]
  · simp [hT]

theorem assembleOptions_append (l₁ l₂ : List OptionEntry) :
    assembleOptions (l₁ ++ l₂) =
      ((assembleOptions l₁).1 ++ (assembleOptions l₂).1,
       (assembleOptions l₁).2 || (assembleOptions l₂).2) := by
  induction l₁ with
  | nil => simp [assembleOptions]
  | cons e es ih => simp [assembleOptions, ih, List.append_assoc, Bool.or_assoc]

theorem assembleOptions_snd_any (l : List OptionEntry) :
    (assembleOptions l).2 = l.any (fun e => (processOption e).2) := by
  induction l with
  | nil => simp [assembleOptions]
  | cons e es ih => simp [assembleOptions, ih]

theorem techLetters_cons (e : OptionEntry) (l : List OptionEntry)
    (h : isTechCheckbox e = false) : techLetters (e :: l) = techLetters l := by
  simp [techLetters, List.filterMap_cons, h]

theorem techLetters_middle (pre post : List OptionEntry) (e : OptionEntry)
    (h : isTechCheckbox e = false) :
    techLetters (pre ++ e :: post) = techLetters (pre ++ post) := by
  unfold techLetters
  rw [List.filterMap_append, List.filterMap_append, List.filterMap_cons]
  simp [h]

theorem techniquePart_congr (l₁ l₂ : List OptionEntry)
    (h : techLetters l₁ = techLetters l₂) : techniquePart l₁ = techniquePart l₂ := by
  unfold techniquePart
  rw [h]

/-- C2: for the technique-letter group, the assembler collects the letters
whose boolean is true in catalogue declaration order (`techLetters` equals
the ordered concatenation `techConcatOrder`); when that letter-set equals
the default set BEUSTQ (as a set, in any order — with one checkbox per
letter this means all six are checked) no `--technique=` token is emitted,
and for any other non-empty letter string exactly the single token
`--technique=<letters>` is emitted, letters in declaration order. -/
theorem C2_technique_letter_group (bB bE bU bS bT bQ : Bool) :
    techLetters (techCatalogue bB bE bU bS bT bQ) = techConcatOrder bB bE bU bS bT bQ ∧
    (charSetEq (techConcatOrder bB bE bU bS bT bQ) "BEUSTQ" = true →
      techniquePart (techCatalogue bB bE bU bS bT bQ) = []) ∧
    (charSetEq (techConcatOrder bB bE bU bS bT bQ) "BEUSTQ" = false →
      techConcatOrder bB bE bU bS bT bQ ≠ "" →
      techniquePart (techCatalogue bB bE bU bS bT bQ) =
        ["--technique=" ++ techConcatOrder bB bE bU bS bT bQ]) := by
  revert bB bE bU bS bT bQ
  decide

/-- C2 witness: checking only U and S yields exactly `--technique=US`. -/
theorem C2_witness :
    charSetEq (techConcatOrder false false true true false false) "BEUSTQ" = false ∧
    techConcatOrder false false true true false false ≠ "" ∧
    techniquePart (techCatalogue false false true true false false) = ["--technique=US"] :=
  ⟨by decide, by decide,
   (C2_technique_letter_group false false true true false false).2.2 (by decide) (by decide)⟩

/-- C10: with every technique boolean false the letter string is empty, so
no `--technique` token is emitted at all, even though the empty letter set
differs from the default set BEUSTQ — the inner non-emptiness check, not
the set comparison, suppresses the token. -/
theorem C10_all_unchecked_no_token :
    techniquePart (techCatalogue false false false false false false) = [] ∧
    charSetEq (techLetters (techCatalogue false false false false false false)) "BEUSTQ" =
      false := by
  decide

/-- C4: an option whose current value equals its registered default under
the kind-specific equality contributes no tokens and no target bit in the
loop, and removing such an option (outside the skipped technique group)
from the catalogue leaves the assembled command and has_target unchanged. -/
theorem C4_default_option_silent :
    (∀ e : OptionEntry, isDefault e = true → processOption e = ([], false)) ∧
    (∀ (base : List String) (pre post : List OptionEntry) (e : OptionEntry),
      isDefault e = true → isTechCheckbox e = false →
      build_sqlmap_command base (pre ++ e :: post) =
        build_sqlmap_command base (pre ++ post)) := by
  constructor
  · exact processOption_default
  · intro base pre post e hd ht
    have hpe := processOption_default e hd
    have hasm : assembleOptions (pre ++ e :: post) = assembleOptions (pre ++ post) := by
      rw [assembleOptions_append, assembleOptions_append]
      simp [assembleOptions, hpe]
    unfold build_sqlmap_command
    rw [hasm, techniquePart_congr _ _ (techLetters_middle pre post e ht)]

/-- C4 witness: the Timeout spin box at its default 30 contributes nothing,
and dropping it from a catalogue leaves the command unchanged. -/
theorem C4_witness :
    processOption (mkSpin "req_timeout" "--timeout" 30 30) = ([], false) ∧
    build_sqlmap_command ["sqlmap"]
        ([mkCheck "req_random_agent" "--random-agent" true false] ++
          mkSpin "req_timeout" "--timeout" 30 30 :: []) =
      build_sqlmap_command ["sqlmap"]
        ([mkCheck "req_random_agent" "--random-agent" true false] ++ []) :=
  ⟨C4_default_option_silent.1 _ (by decide),
   C4_default_option_silent.2 ["sqlmap"] _ [] _ (by decide) (by decide)⟩

/-- C5 counterexample: the CSV-delimiter option with its line edit cleared
differs from its default (`,`) and has a long-form flag, yet the loop emits
no token at all for it — not the claimed single `--csv-del=<value>` token —
because the empty value string fails the emission guard. -/
theorem C5_counterexample :
    isDefault csvDelEmpty = false ∧
    csvDelEmpty.wtype ≠ WidgetKind.checkbox ∧
    strStartsWith csvDelEmpty.flag "--" = true ∧
    processOption csvDelEmpty = ([], false) ∧
    build_sqlmap_command ["sqlmap"] [csvDelEmpty] = (["sqlmap"], false) := by
  decide

/-- C5 (amended): for a non-technique option differing from its default,
a checkbox contributes exactly the bare flag; a non-checkbox option whose
computed value string is empty contributes nothing; otherwise a two-dash
flag contributes the single token flag=value and any other flag contributes
the two tokens flag then value. -/
theorem C5_token_shapes (e : OptionEntry) (hskip : isTechCheckbox e = false)
    (hnd : isDefault e = false) :
    (e.wtype = WidgetKind.checkbox → (processOption e).1 = [e.flag]) ∧
    (∀ v : String, currentVal e = PyVal.vstr v →
      ((v = "" → (processOption e).1 = []) ∧
       (v ≠ "" → strStartsWith e.flag "--" = true →
         (processOption e).1 = [e.flag ++ "=" ++ v]) ∧
       (v ≠ "" → strStartsWith e.flag "--" = false →
         (processOption e).1 = [e.flag, v]))) := by
  constructor
  · intro hcb
    have hv : currentVal e = PyVal.vtrue := by simp [currentVal, hcb]
    simp [processOption, hskip, hnd, hv]
  · intro v hv
    refine ⟨?_, ?_, ?_⟩
    · intro hve
      simp [processOption, hskip, hnd, hv, hve]
    · intro hne hlong
      have : (v == "") = false := beq_eq_false_iff_ne.mpr hne
      simp [processOption, hskip, hnd, hv, this, hlong]
    · intro hne hshort
      have : (v == "") = false := beq_eq_false_iff_ne.mpr hne
      simp [processOption, hskip, hnd, hv, this, hshort]

/-- C5 witness: the Timeout spin box at 45 (default 30) emits the single
token `--timeout=45`, and the Random-Agent checkbox emits its bare flag. -/
theorem C5_witness :
    (processOption (mkSpin "req_timeout" "--timeout" 45 30)).1 = ["--timeout=45"] ∧
    (processOption (mkCheck "req_random_agent" "--random-agent" true false)).1 =
      ["--random-agent"] :=
  ⟨((C5_token_shapes (mkSpin "req_timeout" "--timeout" 45 30) (by decide) (by decide)).2
      "45" (by decide)).2.1 (by decide) (by decide),
   (C5_token_shapes (mkCheck "req_random_agent" "--random-agent" true false) (by decide)
      (by decide)).1 rfl⟩

/-- C6: the end-to-end example — url set against empty default, timeout 45
against default 30, random-agent checked against default false — assembles
to exactly the executable prefix followed by `-u`, its value as a separate
token, the single token `--timeout=45`, and the bare `--random-agent`, with
has_target true. -/
theorem C6_end_to_end (exePrefix : List String) :
    build_sqlmap_command exePrefix c6Catalogue =
      (exePrefix ++ ["-u", "http://x/a.php?id=1", "--timeout=45", "--random-agent"],
       true) := by
  have h1 : assembleOptions c6Catalogue =
      (["-u", "http://x/a.php?id=1", "--timeout=45", "--random-agent"], true) := by
    decide
  have h2 : techniquePart c6Catalogue = [] := by decide
  simp [build_sqlmap_command, h1, h2]

theorem target_flags_short :
    ∀ f ∈ target_options, strStartsWith f "--" = false := by decide

theorem processOption_target (e : OptionEntry) (h : (processOption e).2 = true) :
    e.flag ∈ target_options ∧ e.flag ∈ (processOption e).1 := by
  unfold processOption at h ⊢
  rcases hT : isTechCheckbox e with _ | _
  · rcases hD : isDefault e with _ | _
    · simp only [hT, hD, Bool.false_eq_true, if_false] at h ⊢
      rcases hv : currentVal e with _ | v
      · simp only [hv] at h ⊢
        have hm : e.flag ∈ target_options := by
          have := List.elem_iff.mp h
          simpa [List.contains] using h
        exact ⟨hm, by simp⟩
      · simp only [hv] at h ⊢
        rcases he : (v == "") with _ | _
        · rcases hs : strStartsWith e.flag "--" with _ | _
          · simp only [he, hs, Bool.false_eq_true, if_false] at h ⊢
            have hm : e.flag ∈ target_options := by simpa [List.contains] using h
            exact ⟨hm, by simp⟩
          · simp only [he, hs, if_true, Bool.false_eq_true, if_false] at h ⊢
            have hm : e.flag ∈ target_options := by simpa [List.contains] using h
            exact absurd (target_flags_short e.flag hm) (by simp [hs])
        · simp [he] at h
    · simp [hT, hD] at h
  · simp [hT] at h

theorem mem_assembleOptions {x : String} {e : OptionEntry} {l : List OptionEntry}
    (he : e ∈ l) (hx : x ∈ (processOption e).1) : x ∈ (assembleOptions l).1 := by
  induction l with
  | nil => cases he
  | cons a as ih =>
      rcases List.mem_cons.mp he with rfl | he'
      · simp only [assembleOptions, List.mem_append]
        exact Or.inl hx
      · simp only [assembleOptions, List.mem_append]
        exact Or.inr (ih he')

/-- C3 counterexample: with the User-Agent line edit containing the literal
text `-u`, the assembled vector contains the target flag token `-u` (as the
value of `-A`) while has_target is false — so has_target is not equivalent
to token membership of a target flag in the vector. -/
theorem C3_counterexample :
    build_sqlmap_command ["sqlmap"] [agentDashU] = (["sqlmap", "-A", "-u"], false) ∧
    "-u" ∈ (build_sqlmap_command ["sqlmap"] [agentDashU]).1 ∧
    "-u" ∈ target_options ∧
    (build_sqlmap_command ["sqlmap"] [agentDashU]).2 = false := by
  decide

/-- C3 (amended): has_target is true iff the loop emitted at least one
option whose flag is one of the target-designating flags; whenever it is
true the vector does contain such a flag token (the converse fails, a value
token may coincide with a target flag); and with only the Target URL option
non-default the assembled vector is the prefix followed by exactly the two
tokens `-u` then the stripped value, with has_target true. -/
theorem C3_has_target :
    (∀ (base : List String) (entries : List OptionEntry),
      (build_sqlmap_command base entries).2 = true ↔
        ∃ e ∈ entries, (processOption e).2 = true) ∧
    (∀ (base : List String) (entries : List OptionEntry),
      (build_sqlmap_command base entries).2 = true →
        ∃ f ∈ target_options, f ∈ (build_sqlmap_command base entries).1) ∧
    (∀ v : String, pyStrip v ≠ "" →
      build_sqlmap_command ["sqlmap"] (urlOnlyCatalogue v) =
        (["sqlmap", "-u", pyStrip v], true)) := by
  refine ⟨?_, ?_, ?_⟩
  · intro base entries
    show (assembleOptions entries).2 = true ↔ _
    rw [assembleOptions_snd_any]
    exact List.any_eq_true
  · intro base entries h
    have h1 : ∃ e ∈ entries, (processOption e).2 = true := by
      have := (assembleOptions_snd_any entries) ▸ h
      exact List.any_eq_true.mp this
    obtain ⟨e, he, hpe⟩ := h1
    obtain ⟨hft, hfp⟩ := processOption_target e hpe
    refine ⟨e.flag, hft, ?_⟩
    show e.flag ∈ base ++ (assembleOptions entries).1 ++ techniquePart entries
    simp only [List.mem_append]
    exact Or.inl (Or.inr (mem_assembleOptions he hfp))
  · intro v hv
    have hne : (pyStrip v == "") = false := beq_eq_false_iff_ne.mpr hv
    have hskip : isTechCheckbox (mkText "target_url" "-u" v "") = false := rfl
    have hdef : isDefault (mkText "target_url" "-u" v "") = (pyStrip v == "") := rfl
    have hcv : currentVal (mkText "target_url" "-u" v "") = PyVal.vstr (pyStrip v) := rfl
    have hflag : strStartsWith (mkText "target_url" "-u" v "").flag "--" = false := rfl
    have hurl : processOption (mkText "target_url" "-u" v "") = (["-u", pyStrip v], true) := by
      unfold processOption
      rw [hskip, hdef, hcv]
      simp only [hne, hflag, Bool.false_eq_true, if_false]
      rfl
    have hrest : assembleOptions urlOnlyRest = ([], false) := by decide
    have hasm : assembleOptions (urlOnlyCatalogue v) = (["-u", pyStrip v], true) := by
      have hstep : assembleOptions (urlOnlyCatalogue v) =
          ((processOption (mkText "target_url" "-u" v "")).1 ++ (assembleOptions urlOnlyRest).1,
           (processOption (mkText "target_url" "-u" v "")).2 ||
             (assembleOptions urlOnlyRest).2) := rfl
      rw [hstep, hurl, hrest]
      simp
    have hl : techLetters (urlOnlyCatalogue v) = techLetters urlOnlyRest :=
      techLetters_cons (mkText "target_url" "-u" v "") urlOnlyRest rfl
    have htech : techniquePart (urlOnlyCatalogue v) = [] := by
      rw [techniquePart_congr _ _ hl]
      decide
    unfold build_sqlmap_command
    rw [hasm, htech]
    simp

/-- C3 witness: the concrete Target-URL-only catalogue assembles to the
claimed vector with has_target true. -/
theorem C3_witness :
    build_sqlmap_command ["sqlmap"] (urlOnlyCatalogue "http://x/a.php?id=1") =
      (["sqlmap", "-u", "http://x/a.php?id=1"], true) := by
  have hps : pyStrip "http://x/a.php?id=1" = "http://x/a.php?id=1" := by decide
  have h := C3_has_target.2.2 "http://x/a.php?id=1" (by decide)
  rw [hps] at h
  exact h

theorem outputs_not_term (i : Nat) (l : List String) :
    ∀ ev ∈ l.map (Event.output i), Event.isTerm ev = false := by
  intro ev h
  rcases List.mem_map.mp h with ⟨s, _, rfl⟩
  rfl

theorem split_outputs_terminals (A B : List Event)
    (hA : ∀ a ∈ A, Event.isTerm a = false) (hB : ∀ b ∈ B, Event.isTerm b = true) :
    A ++ B = (A ++ B).filter (fun e => !Event.isTerm e) ++ (A ++ B).filter Event.isTerm := by
  have h1 : A.filter (fun e => !Event.isTerm e) = A :=
    List.filter_eq_self.mpr (fun a ha => by simp [hA a ha])
  have h2 : B.filter (fun e => !Event.isTerm e) = [] :=
    List.filter_eq_nil_iff.mpr (fun x hx => by simp [hB x hx])
  have h3 : A.filter Event.isTerm = [] :=
    List.filter_eq_nil_iff.mpr (fun a ha => by simp [hA a ha])
  have h4 : B.filter Event.isTerm = B :=
    List.filter_eq_self.mpr (fun x hx => hB x hx)
  rw [List.filter_append, List.filter_append, h1, h2, h3, h4]
  simp

theorem trace_split (tr A B : List Event) (htr : tr = A ++ B)
    (hA : ∀ a ∈ A, Event.isTerm a = false) (hB : ∀ b ∈ B, Event.isTerm b = true) :
    tr = tr.filter (fun e => !Event.isTerm e) ++ tr.filter Event.isTerm := by
  subst htr
  exact split_outputs_terminals A B hA hB

theorem cons_outputs_not_term (i : Nat) (s : String) (l : List String) :
    ∀ ev ∈ Event.output i s :: l.map (Event.output i), Event.isTerm ev = false := by
  intro ev h
  rcases List.mem_cons.mp h with rfl | h'
  · rfl
  · exact outputs_not_term i l ev h'

/-- C1 counterexample: when the spawn itself fails (executable not found),
`run` emits `processError` and then also `processFinished(-1)` for the same
handle — two terminal notifications, both kinds, not exactly one of the
two. -/
theorem C1_counterexample :
    (runTrace fnfBehavior 0 none none 0).countP Event.isErr = 1 ∧
    (runTrace fnfBehavior 0 none none 0).countP Event.isFin = 1 ∧
    (runTrace fnfBehavior 0 none none 0).countP Event.isTerm = 2 := by
  decide

/-- C1 (amended): every run of a handle emits `processFinished` exactly
once — never zero, never twice — and emits `processError` exactly once on
the failure paths (spawn failure, or an unexpected exception in the read
loop) and never otherwise; on those failure paths the `processError`
immediately precedes the `processFinished`, that `processFinished` carries
exit code -1, and everything before the pair is an output.  Hence a failed
instance receives both a `processError` and a `processFinished(-1)`, not
exactly one of the two. -/
theorem C1_terminal_notifications (b : RunBehavior) (i : Nat) (cA rA : Option Nat)
    (eA : Nat) :
    (runTrace b i cA rA eA).countP Event.isFin = 1 ∧
    (runTrace b i cA rA eA).countP Event.isErr =
      (if b.spawnOk then
        (if (readLoop b.lines cA rA eA).2 = LoopExit.raised then 1 else 0)
       else 1) ∧
    (b.spawnOk = false →
      runTrace b i cA rA eA =
        [Event.output i (kommandoMsg b.cmd), Event.error i (fnfMsg b.cmd),
         Event.finished i (-1)]) ∧
    (b.spawnOk = true → (readLoop b.lines cA rA eA).2 = LoopExit.raised →
      ∃ pre : List Event, (∀ ev ∈ pre, Event.isTerm ev = false) ∧
        runTrace b i cA rA eA =
          pre ++ [Event.error i (excMsgWrap b.excMsg), Event.finished i (-1)]) := by
  refine ⟨?_, ?_, ?_, ?_⟩
  · rcases hs : b.spawnOk with _ | _
    · simp [runTrace, hs, Event.isFin]
    · rcases ho : (readLoop b.lines cA rA eA).2 with _ | al | _
      · simp [runTrace, hs, ho, List.countP_cons, List.countP_append, List.countP_map,
          Function.comp_def, Event.isFin, List.countP_false]
      · rcases al with _ | _ <;>
          simp [runTrace, hs, ho, List.countP_cons, List.countP_append, List.countP_map,
            Function.comp_def, Event.isFin, List.countP_false]
      · simp [runTrace, hs, ho, List.countP_cons, List.countP_append, List.countP_map,
          Function.comp_def, Event.isFin, List.countP_false]
  · rcases hs : b.spawnOk with _ | _
    · simp [runTrace, hs, Event.isErr]
    · rcases ho : (readLoop b.lines cA rA eA).2 with _ | al | _
      · simp [runTrace, hs, ho, List.countP_cons, List.countP_append, List.countP_map,
          Function.comp_def, Event.isErr, List.countP_false]
      · rcases al with _ | _ <;>
          simp [runTrace, hs, ho, List.countP_cons, List.countP_append, List.countP_map,
            Function.comp_def, Event.isErr, List.countP_false]
      · simp [runTrace, hs, ho, List.countP_cons, List.countP_append, List.countP_map,
          Function.comp_def, Event.isErr, List.countP_false]
  · intro hs
    simp [runTrace, hs]
  · intro hs ho
    refine ⟨Event.output i (kommandoMsg b.cmd) ::
      (readLoop b.lines cA rA eA).1.map (Event.output i),
      cons_outputs_not_term i _ _, ?_⟩
    simp [runTrace, hs, ho]

/-- C1 witness: the concrete spawn-failure behavior produces exactly the
banner, the `processError`, and the `processFinished(-1)`, in that order. -/
theorem C1_witness :
    runTrace fnfBehavior 0 none none 0 =
      [Event.output 0 (kommandoMsg fnfBehavior.cmd), Event.error 0 (fnfMsg fnfBehavior.cmd),
       Event.finished 0 (-1)] :=
  (C1_terminal_notifications fnfBehavior 0 none none 0).2.2.1 rfl

/-- C9 counterexample: cancellation observed while a line is still unread —
the output stream still open — but after the child process has already
exited: line 95's `poll() is None` guard fails, so the pending line is
dropped and no cancellation chunk appears anywhere in the trace, which ends
with a plain `processFinished(exit code)`. -/
theorem C9_counterexample :
    runTrace cancelledBehavior 3 (some 0) none 0 =
      [Event.output 3 (kommandoMsg cancelledBehavior.cmd),
       Event.finished 3 cancelledBehavior.exitCode] ∧
    cancelledBehavior.lines ≠ [] ∧
    Event.output 3 cancelMsg ∉ runTrace cancelledBehavior 3 (some 0) none 0 := by
  decide

/-- C9 (amended): in every run trace, all `processError`/`processFinished`
emissions come after every `outputTextAvailable` emission (the trace is its
output part followed by its terminal part); when cancellation is observed
while the process is still alive, the informational cancellation chunk is
an output emitted before the terminal notification; but when cancellation
is observed after the process has already exited — even with unread output
pending, i.e. the stream still open — no cancellation chunk is emitted and
the trace ends with the plain completion notification. -/
theorem C9_terminal_after_outputs (b : RunBehavior) (i : Nat) (cA rA : Option Nat)
    (eA : Nat) :
    (runTrace b i cA rA eA =
      (runTrace b i cA rA eA).filter (fun e => !Event.isTerm e) ++
        (runTrace b i cA rA eA).filter Event.isTerm) ∧
    (b.spawnOk = true → (readLoop b.lines cA rA eA).2 = LoopExit.cancelled true →
      ∃ pre : List Event, (∀ ev ∈ pre, Event.isTerm ev = false) ∧
        runTrace b i cA rA eA =
          pre ++ [Event.output i cancelMsg, Event.finished i b.termCode]) ∧
    (b.spawnOk = true → (readLoop b.lines cA rA eA).2 = LoopExit.cancelled false →
      runTrace b i cA rA eA =
        Event.output i (kommandoMsg b.cmd) ::
          ((readLoop b.lines cA rA eA).1.map (Event.output i) ++
            [Event.finished i b.exitCode])) := by
  refine ⟨?_, ?_, ?_⟩
  · rcases hs : b.spawnOk with _ | _
    · refine trace_split _ [Event.output i (kommandoMsg b.cmd)]
        [Event.error i (fnfMsg b.cmd), Event.finished i (-1)] ?_ ?_ ?_
      · simp [runTrace, hs]
      · intro a ha
        rcases List.mem_singleton.mp ha with rfl
        rfl
      · intro x hx
        rcases List.mem_cons.mp hx with rfl | hx'
        · rfl
        · rcases List.mem_singleton.mp hx' with rfl
          rfl
    · rcases ho : (readLoop b.lines cA rA eA).2 with _ | al | _
      · refine trace_split _
          (Event.output i (kommandoMsg b.cmd) ::
            (readLoop b.lines cA rA eA).1.map (Event.output i))
          [Event.finished i b.exitCode] ?_ (cons_outputs_not_term i _ _) ?_
        · simp [runTrace, hs, ho]
        · intro x hx
          rcases List.mem_singleton.mp hx with rfl
          rfl
      · rcases al with _ | _
        · refine trace_split _
            (Event.output i (kommandoMsg b.cmd) ::
              (readLoop b.lines cA rA eA).1.map (Event.output i))
            [Event.finished i b.exitCode] ?_ (cons_outputs_not_term i _ _) ?_
          · simp [runTrace, hs, ho]
          · intro x hx
            rcases List.mem_singleton.mp hx with rfl
            rfl
        · refine trace_split _
            (Event.output i (kommandoMsg b.cmd) ::
              ((readLoop b.lines cA rA eA).1.map (Event.output i) ++
                [Event.output i cancelMsg]))
            [Event.finished i b.termCode] ?_ ?_ ?_
          · simp [runTrace, hs, ho]
          · intro a ha
            rcases List.mem_cons.mp ha with rfl | ha'
            · rfl
            · rcases List.mem_append.mp ha' with h1 | h2
              · exact outputs_not_term i _ a h1
              · rcases List.mem_singleton.mp h2 with rfl
                rfl
          · intro x hx
            rcases List.mem_singleton.mp hx with rfl
            rfl
      · refine trace_split _
          (Event.output i (kommandoMsg b.cmd) ::
            (readLoop b.lines cA rA eA).1.map (Event.output i))
          [Event.error i (excMsgWrap b.excMsg), Event.finished i (-1)] ?_
          (cons_outputs_not_term i _ _) ?_
        · simp [runTrace, hs, ho]
        · intro x hx
          rcases List.mem_cons.mp hx with rfl | hx'
          · rfl
          · rcases List.mem_singleton.mp hx' with rfl
            rfl
  · intro hs ho
    refine ⟨Event.output i (kommandoMsg b.cmd) ::
      (readLoop b.lines cA rA eA).1.map (Event.output i),
      cons_outputs_not_term i _ _, ?_⟩
    simp [runTrace, hs, ho]
  · intro hs ho
    simp [runTrace, hs, ho]

/-- C9 witness: cancellation at the first loop iteration while the process
is still alive emits the banner, then the cancellation chunk, then the
terminal notification, in that order. -/
theorem C9_witness :
    ∃ pre : List Event, (∀ ev ∈ pre, Event.isTerm ev = false) ∧
      runTrace cancelledBehavior 3 (some 0) none 1 =
        pre ++ [Event.output 3 cancelMsg, Event.finished 3 cancelledBehavior.termCode] :=
  (C9_terminal_after_outputs cancelledBehavior 3 (some 0) none 1).2.1 rfl rfl

theorem allocIds_le {n c x : Nat} (h : x ∈ allocIds c n) : c ≤ x := by
  induction n generalizing c with
  | zero => simp [allocIds] at h
  | succ n ih =>
      simp only [allocIds, newThreadId, List.mem_cons] at h
      rcases h with rfl | h'
      · exact Nat.le_refl x
      · exact Nat.le_of_succ_le (ih h')

/-- C7: identifiers handed out by the class counter are strictly increasing
in allocation order — every new handle is strictly greater than all handles
allocated before it — and therefore pairwise distinct and never reused,
from any starting counter value and for any number of instances. -/
theorem C7_handle_allocation (c n : Nat) :
    (allocIds c n).Pairwise (· < ·) ∧ (allocIds c n).Nodup := by
  have hpw : ∀ (m d : Nat), (allocIds d m).Pairwise (· < ·) := by
    intro m
    induction m with
    | zero => intro d; simp [allocIds]
    | succ m ih =>
        intro d
        simp only [allocIds, newThreadId]
        exact List.Pairwise.cons (fun x hx => Nat.lt_of_succ_le (allocIds_le hx)) (ih (d + 1))
  exact ⟨hpw n c, (hpw n c).imp (fun h => Nat.ne_of_lt h)⟩

/-- C8: `stop` emits nothing when the process reference is already cleared
or the process has already exited (`poll()` not `None`), and the GUI-side
stop of an unknown handle, or of a known handle whose process is terminal,
emits nothing either; no exception escapes (`stopEmits` is total and the
source catches every exception inside `stop`). -/
theorem C8_stop_terminal_noop :
    (∀ (i : Nat) (proc : Option (Option Int)) (oc : StopOutcome),
      (proc = none ∨ ∃ c : Int, proc = some (some c)) → stopEmits i proc oc = []) ∧
    (∀ (procs : List (Nat × ThreadState)) (i : Nat) (oc : StopOutcome),
      procs.find? (fun p => p.1 == i) = none → stopCurrentInstance procs i oc = []) ∧
    (∀ (procs : List (Nat × ThreadState)) (i : Nat) (oc : StopOutcome)
        (p : Nat × ThreadState),
      procs.find? (fun q => q.1 == i) = some p →
      (p.2.process = none ∨ ∃ c : Int, p.2.process = some (some c)) →
      stopCurrentInstance procs i oc = []) := by
  refine ⟨?_, ?_, ?_⟩
  · rintro i proc oc (rfl | ⟨c, rfl⟩) <;> rfl
  · intro procs i oc h
    unfold stopCurrentInstance
    rw [h]
  · intro procs i oc p hf hterm
    unfold stopCurrentInstance
    rw [hf]
    rcases hr : p.2.threadRunning with _ | _
    · simp [hr]
    · simp only [hr, if_true]
      rcases hterm with h | ⟨c, h⟩ <;> rw [h] <;> rfl

/-- C8 witness: stopping an already-exited process, an unknown handle, and
a known handle whose process has exited all emit nothing. -/
theorem C8_witness :
    stopEmits 4 (some (some 0)) StopOutcome.timedOutThenKill = [] ∧
    stopCurrentInstance [] 5 StopOutcome.graceful = [] ∧
    stopCurrentInstance [(2, ThreadState.mk (some (some 1)) true)] 2
      StopOutcome.graceful = [] :=
  ⟨C8_stop_terminal_noop.1 4 (some (some 0)) StopOutcome.timedOutThenKill (Or.inr ⟨0, rfl⟩),
   C8_stop_terminal_noop.2.1 [] 5 StopOutcome.graceful rfl,
   C8_stop_terminal_noop.2.2 [(2, ThreadState.mk (some (some 1)) true)] 2
     StopOutcome.graceful (2, ThreadState.mk (some (some 1)) true) (by decide)
     (Or.inr ⟨1, rfl⟩)⟩
